import Mathlib

/-!
Shallow embedding of the Food_Planner recipe repository.

The repository contains several near-duplicate implementations of one CRUD
surface over a `recipes` table.  Each namespace below embeds one source file:

* `FoodDb`      — src/food/db.py (the sqlite branch of each function);
* `CookbookDb`  — the db.py variant embedded in src/pages/cookbook.py
                  (its `init_db` carries the NOT NULL → nullable migration and
                  its `update_recipe` returns the cursor rowcount);
* `ServicesDb`  — src/services/db.py (whose `list_recipes` orders by recency);
* `Diagnostics` — the health-check surface used by src/pages/DB_Status.py.

SQL statements are modelled by their effect on an explicit table state: an
INSERT appends a row and advances the AUTOINCREMENT counter, UPDATE maps the
matching row through the computed SET clause, DELETE filters it out, ORDER BY
is a sort by the given key, and a fetched row is a list of column/value pairs
mirroring the Python dict the code builds.
-/

set_option linter.unusedVariables false

/-- Drop leading whitespace characters from a character list. -/
def dropLeadingWs : List Char → List Char
  | [] => []
  | c :: cs => if c.isWhitespace then dropLeadingWs cs else c :: cs

/-- Python `str.strip()` with no argument: remove leading and trailing
whitespace. -/
def pyStrip (s : String) : String :=
  String.mk ((dropLeadingWs ((dropLeadingWs s.data).reverse)).reverse)

namespace FoodDb

/-- A SQL value as it appears in a fetched row dictionary. -/
inductive Value where
  | int (i : Int)
  | str (s : String)
  | blob (b : List Nat)
  | null
deriving DecidableEq, Repr

/-- One row of the `recipes` table created by `_ensure_schema` in
src/food/db.py: id, title, ingredients, instructions, the three image
columns (nullable), serves (schema default 0), created_at, updated_at. -/
structure FoodRow where
  id : Nat
  title : String
  ingredients : String
  instructions : String
  image_bytes : Option (List Nat)
  image_mime : Option String
  image_filename : Option String
  serves : Int
  created_at : String
  updated_at : String
deriving DecidableEq, Repr

/-- The `recipes` table plus the sqlite AUTOINCREMENT counter (ids are
assigned increasing and never reused). -/
structure FoodStore where
  rows : List FoodRow
  nextId : Nat
deriving DecidableEq, Repr

/-- A freshly created database: no rows, first id will be 1. -/
def emptyStore : FoodStore := { rows := [], nextId := 1 }

/-- Helper `_to_int` of src/food/db.py: `int(v)` with a default when the
conversion fails; on an optional integer this is `getD`. -/
def to_int (v : Option Int) (default : Int) : Int := v.getD default

/-- Keyword arguments of `add_recipe` in src/food/db.py; every field except
`title` defaults to `None`. -/
structure AddArgs where
  title : String
  ingredients : Option String := none
  instructions : Option String := none
  image_bytes : Option (List Nat) := none
  image_mime : Option String := none
  image_filename : Option String := none
  serves : Option Int := none
  servings : Option Int := none
deriving DecidableEq, Repr

/-- `add_recipe` of src/food/db.py (sqlite branch): computes
`serves_val = _to_int(serves if serves is not None else servings, 0)`,
inserts one row with the stripped title, `ingredients or ""`,
`instructions or ""`, the image values as given, and the application-side
timestamp, and returns `cur.lastrowid`.  There is no validation of any
field. -/
def add_recipe (s : FoodStore) (a : AddArgs) (now : String) : Nat × FoodStore :=
  let serves_val := to_int (if a.serves.isSome then a.serves else a.servings) 0
  let row : FoodRow :=
    { id := s.nextId
      title := pyStrip a.title
      ingredients := a.ingredients.getD ""
      instructions := a.instructions.getD ""
      image_bytes := a.image_bytes
      image_mime := a.image_mime
      image_filename := a.image_filename
      serves := serves_val
      created_at := now
      updated_at := now }
  (s.nextId, { rows := s.rows ++ [row], nextId := s.nextId + 1 })

/-- The dict built from a fetched row in `get_recipe` of src/food/db.py:
one entry per selected column, in SELECT order. -/
def rowDict (r : FoodRow) : List (String × Value) :=
  [("id", Value.int r.id),
   ("title", Value.str r.title),
   ("ingredients", Value.str r.ingredients),
   ("instructions", Value.str r.instructions),
   ("image_bytes", (r.image_bytes.map Value.blob).getD Value.null),
   ("image_mime", (r.image_mime.map Value.str).getD Value.null),
   ("image_filename", (r.image_filename.map Value.str).getD Value.null),
   ("serves", Value.int r.serves),
   ("created_at", Value.str r.created_at),
   ("updated_at", Value.str r.updated_at)]

/-- `get_recipe` of src/food/db.py: SELECT the row WHERE id matches, return
`None` when absent; otherwise build the column dict and, when it has no
`servings` key, add `d["servings"] = d.get("serves", 0)` for back-compat. -/
def get_recipe (s : FoodStore) (recipe_id : Nat) : Option (List (String × Value)) :=
  match s.rows.find? (fun r => r.id == recipe_id) with
  | none => none
  | some r =>
      let d := rowDict r
      let d := if (d.lookup "servings").isNone
               then d ++ [("servings", (d.lookup "serves").getD (Value.int 0))]
               else d
      some d

/-- The dict `get_recipe` returns for a found row (the column dict with the
`servings` alias appended). -/
def recipeDict (r : FoodRow) : List (String × Value) :=
  rowDict r ++ [("servings", Value.int r.serves)]

/-- Remove the entries carrying a given key from a row dict. -/
def dropKey (d : List (String × Value)) (k : String) : List (String × Value) :=
  d.filter (fun p => !(p.1 == k))

/-- The comparison behind `ORDER BY title ASC` in `list_recipes` of
src/food/db.py.  The SQL names no further sort key, so equal titles carry no
ordering contract. -/
def titleLe (a b : FoodRow) : Prop := a.title ≤ b.title

instance : DecidableRel titleLe :=
  fun a b => inferInstanceAs (Decidable (a.title ≤ b.title))

instance : IsTotal FoodRow titleLe := ⟨fun a b => le_total a.title b.title⟩

instance : IsTrans FoodRow titleLe := ⟨fun _ _ _ hab hbc => le_trans hab hbc⟩

/-- `list_recipes` of src/food/db.py: `SELECT id, title FROM recipes ORDER BY
title ASC` mapped to `{"id": ..., "title": ...}` items. -/
def list_recipes (s : FoodStore) : List (Nat × String) :=
  (List.insertionSort titleLe s.rows).map (fun r => (r.id, r.title))

/-- Keyword arguments of `update_recipe` in src/food/db.py; every value
defaults to `None` and `keep_existing_image` defaults to `True`. -/
structure UpdateArgs where
  title : Option String := none
  ingredients : Option String := none
  instructions : Option String := none
  image_bytes : Option (List Nat) := none
  image_mime : Option String := none
  image_filename : Option String := none
  keep_existing_image : Bool := true
  serves : Option Int := none
  servings : Option Int := none
deriving DecidableEq, Repr

/-- SET clause contributed by `title` in `update_recipe`: only a supplied
title is written, stripped. -/
def updTitle (a : UpdateArgs) (r : FoodRow) : FoodRow :=
  match a.title with
  | some t => { r with title := pyStrip t }
  | none => r

/-- SET clause contributed by `ingredients` in `update_recipe`. -/
def updIngredients (a : UpdateArgs) (r : FoodRow) : FoodRow :=
  match a.ingredients with
  | some v => { r with ingredients := v }
  | none => r

/-- SET clause contributed by `instructions` in `update_recipe`. -/
def updInstructions (a : UpdateArgs) (r : FoodRow) : FoodRow :=
  match a.instructions with
  | some v => { r with instructions := v }
  | none => r

/-- SET clause contributed by serves/servings in `update_recipe`:
`target_serves = serves if serves is not None else servings`, written through
`_to_int(..., 0)` when supplied. -/
def updServes (a : UpdateArgs) (r : FoodRow) : FoodRow :=
  match (if a.serves.isSome then a.serves else a.servings) with
  | some v => { r with serves := to_int (some v) 0 }
  | none => r

/-- Image handling of `update_recipe`: when `keep_existing_image` each image
column is written only if a new value is supplied; otherwise all three image
columns are written with the supplied values (None clears them). -/
def updImage (a : UpdateArgs) (r : FoodRow) : FoodRow :=
  if a.keep_existing_image then
    let r1 := match a.image_bytes with
      | some b => { r with image_bytes := some b }
      | none => r
    let r2 := match a.image_mime with
      | some m => { r1 with image_mime := some m }
      | none => r1
    match a.image_filename with
    | some f => { r2 with image_filename := some f }
    | none => r2
  else
    { r with image_bytes := a.image_bytes
             image_mime := a.image_mime
             image_filename := a.image_filename }

/-- Complete SET clause of `update_recipe` applied to one row: the field
clauses in source order, then `updated_at` is always written. -/
def applyUpdate (a : UpdateArgs) (now : String) (r : FoodRow) : FoodRow :=
  { updImage a (updServes a (updInstructions a (updIngredients a (updTitle a r))))
      with updated_at := now }

/-- `update_recipe` of src/food/db.py: UPDATE ... WHERE id matches.  The
function returns `None` in the source; only the store changes. -/
def update_recipe (s : FoodStore) (recipe_id : Nat) (a : UpdateArgs) (now : String) :
    FoodStore :=
  { s with rows := s.rows.map (fun r => if r.id == recipe_id then applyUpdate a now r else r) }

/-- `delete_recipe` of src/food/db.py: DELETE FROM recipes WHERE id matches;
no error when nothing matches. -/
def delete_recipe (s : FoodStore) (recipe_id : Nat) : FoodStore :=
  { s with rows := s.rows.filter (fun r => !(r.id == recipe_id)) }

/-- `count_recipes` of src/food/db.py: SELECT COUNT(*). -/
def count_recipes (s : FoodStore) : Nat := s.rows.length

/-- The module-level `_DB` connection state of src/food/db.py plus the file
contents the sqlite path denotes. -/
structure DBState where
  connected : Bool
  engine : Option String
  path : Option String
  schemaReady : Bool
  store : FoodStore
deriving DecidableEq, Repr

/-- `_conn` of src/food/db.py: when no connection is held it calls
`_init_sqlite("food.sqlite3")` followed by `_ensure_schema()`, then returns
the connection; an already-connected state is returned unchanged. -/
def conn (st : DBState) : DBState :=
  if st.connected then st
  else { st with connected := true
                 engine := some "sqlite"
                 path := some "food.sqlite3"
                 schemaReady := true }

/-- `add_recipe` as invoked through `con = _conn()`. -/
def add_recipe_op (st : DBState) (a : AddArgs) (now : String) : Nat × DBState :=
  let st := conn st
  let p := add_recipe st.store a now
  (p.1, { st with store := p.2 })

/-- `get_recipe` as invoked through `con = _conn()`. -/
def get_recipe_op (st : DBState) (recipe_id : Nat) :
    Option (List (String × Value)) × DBState :=
  let st := conn st
  (get_recipe st.store recipe_id, st)

/-- `list_recipes` as invoked through `con = _conn()`. -/
def list_recipes_op (st : DBState) : List (Nat × String) × DBState :=
  let st := conn st
  (list_recipes st.store, st)

/-- `update_recipe` as invoked through `con = _conn()`. -/
def update_recipe_op (st : DBState) (recipe_id : Nat) (a : UpdateArgs) (now : String) :
    DBState :=
  let st := conn st
  { st with store := update_recipe st.store recipe_id a now }

/-- `delete_recipe` as invoked through `con = _conn()`. -/
def delete_recipe_op (st : DBState) (recipe_id : Nat) : DBState :=
  let st := conn st
  { st with store := delete_recipe st.store recipe_id }

/-- `count_recipes` as invoked through `con = _conn()`. -/
def count_recipes_op (st : DBState) : Nat × DBState :=
  let st := conn st
  (count_recipes st.store, st)

/-- A concrete recipe row used to instantiate hypotheses in witnesses. -/
def sampleRow : FoodRow :=
  { id := 1
    title := "Soup"
    ingredients := "Water"
    instructions := "Boil"
    image_bytes := some [7, 7]
    image_mime := some "image/png"
    image_filename := some "soup.png"
    serves := 2
    created_at := "2025-01-01 00:00:00"
    updated_at := "2025-01-01 00:00:00" }

/-- A concrete one-row store used to instantiate hypotheses in witnesses. -/
def sampleStore : FoodStore :=
  { rows := [sampleRow], nextId := 2 }

/-- A process state in which `init_db` was never called. -/
def sampleUninit : DBState :=
  { connected := false
    engine := none
    path := none
    schemaReady := false
    store := sampleStore }

end FoodDb

namespace CookbookDb

/-- One row of the `recipes` table of the db.py variant embedded in
src/pages/cookbook.py: title plus nullable description/ingredients/steps/tags,
integer minutes and servings, and created_at. -/
structure CookRow where
  id : Nat
  title : String
  description : Option String
  ingredients : Option String
  steps : Option String
  tags : Option String
  prep_minutes : Int
  cook_minutes : Int
  servings : Int
  created_at : String
deriving DecidableEq, Repr

/-- The `recipes` table together with the `PRAGMA table_info` notnull flags
of the `ingredients` and `steps` columns (index 3 of each pragma row). -/
structure CookTable where
  ingredients_notnull : Bool
  steps_notnull : Bool
  rows : List CookRow
deriving DecidableEq, Repr

/-- `init_db` of the embedded db.py variant in src/pages/cookbook.py (lines
248-303): `CREATE TABLE IF NOT EXISTS` with nullable ingredients/steps, then
inspect `PRAGMA table_info`; when either legacy column is declared NOT NULL,
rebuild — inside one `BEGIN`/commit transaction, modelled as a single state
transition — a table with nullable columns, copying every row (all columns
including id) with `INSERT INTO recipes_new ... SELECT ... FROM recipes`,
drop the old table and rename.  A nonexistent table is created empty. -/
def init_db : Option CookTable → CookTable
  | none => { ingredients_notnull := false, steps_notnull := false, rows := [] }
  | some t =>
      let needs_migration := t.ingredients_notnull || t.steps_notnull
      if needs_migration then
        { ingredients_notnull := false, steps_notnull := false, rows := t.rows }
      else t

/-- Python `x or d` on an integer: `x` is falsy exactly when it is 0. -/
def orInt (x d : Int) : Int := if x == 0 then d else x

/-- `update_recipe` of the embedded db.py variant in src/pages/cookbook.py
(lines 337-370): one UPDATE overwriting every column (strings stripped,
`int(prep_minutes or 0)`, `int(cook_minutes or 0)`, `int(servings or 1)`)
WHERE id matches, returning `cur.rowcount` — the number of matched rows. -/
def update_recipe (t : CookTable) (recipe_id : Nat)
    (title description ingredients steps tags : String)
    (prep_minutes cook_minutes servings : Int) : Nat × CookTable :=
  let rows := t.rows.map (fun r =>
    if r.id == recipe_id then
      { r with title := pyStrip title
               description := some (pyStrip description)
               ingredients := some (pyStrip ingredients)
               steps := some (pyStrip steps)
               tags := some (pyStrip tags)
               prep_minutes := orInt prep_minutes 0
               cook_minutes := orInt cook_minutes 0
               servings := orInt servings 1 }
    else r)
  let matched := (t.rows.filter (fun r => r.id == recipe_id)).length
  (matched, { t with rows := rows })

/-- A concrete legacy table (both columns NOT NULL) for witnesses. -/
def sampleLegacy : CookTable :=
  { ingredients_notnull := true
    steps_notnull := true
    rows := [{ id := 4
               title := "Stew"
               description := some "old"
               ingredients := some "Beef"
               steps := some "Cook"
               tags := some "dinner"
               prep_minutes := 10
               cook_minutes := 90
               servings := 4
               created_at := "2024-05-05 12:00:00" }] }

end CookbookDb

namespace ServicesDb

/-- One row of the `recipes` table of src/services/db.py.  `created_at`
defaults to `datetime('now')`; it is modelled as a numeric timestamp so the
`ORDER BY created_at DESC` comparison is explicit. -/
structure ServiceRow where
  id : Nat
  title : String
  description : String
  ingredients : String
  steps : String
  tags : String
  prep_minutes : Int
  cook_minutes : Int
  servings : Int
  created_at : Nat
deriving DecidableEq, Repr

/-- The `recipes` table of src/services/db.py. -/
structure ServiceStore where
  rows : List ServiceRow
deriving DecidableEq, Repr

/-- `LIKE '%pat%'`: sqlite LIKE is case-insensitive, so this is a
case-insensitive substring test. -/
def likeContains (hay pat : String) : Bool :=
  decide (1 < (hay.toLower.splitOn pat.toLower).length) || pat == ""

/-- The comparison behind `ORDER BY created_at DESC` in `list_recipes` of
src/services/db.py: a row sorts before another when its timestamp is at
least as recent. -/
def recencyGe (a b : ServiceRow) : Prop := b.created_at ≤ a.created_at

instance : DecidableRel recencyGe :=
  fun a b => inferInstanceAs (Decidable (b.created_at ≤ a.created_at))

/-- `list_recipes` of src/services/db.py: optional title/tags LIKE filter,
`ORDER BY created_at DESC`, `LIMIT`, selecting (id, title, tags, servings,
prep_minutes, cook_minutes, created_at). -/
def list_recipes (s : ServiceStore) (limit : Nat) (search : Option String) :
    List (Nat × String × String × Int × Int × Int × Nat) :=
  let rows := match search with
    | some q => s.rows.filter (fun r => likeContains r.title q || likeContains r.tags q)
    | none => s.rows
  ((List.insertionSort recencyGe rows).take limit).map
    (fun r => (r.id, r.title, r.tags, r.servings, r.prep_minutes, r.cook_minutes, r.created_at))

/-- Two recipes whose insertion (recency) order disagrees with alphabetical
order: "Apple" added first, "Beef" added second. -/
def servicesSample : ServiceStore :=
  { rows := [{ id := 1
               title := "Apple"
               description := ""
               ingredients := "apples"
               steps := "peel"
               tags := ""
               prep_minutes := 5
               cook_minutes := 0
               servings := 1
               created_at := 1 },
             { id := 2
               title := "Beef"
               description := ""
               ingredients := "beef"
               steps := "roast"
               tags := ""
               prep_minutes := 10
               cook_minutes := 60
               servings := 2
               created_at := 2 }] }

end ServicesDb

namespace Diagnostics

/-- Modelled from the spec: `ping` is imported from `food.db` by
src/pages/DB_Status.py but no definition of it appears under src/ (only its
use at the call site `ok_ping = ping()`).  Spec section 4.3: `ping() ->
bool` attempts a trivial round-trip query and returns false on any exception
rather than propagating it; it returns true when the backend answers.  The
round trip outcome is the argument: a successful answer or an exception. -/
def ping (roundTrip : Except String Unit) : Bool :=
  match roundTrip with
  | Except.ok _ => true
  | Except.error _ => false

end Diagnostics

/-!
Helper lemmas shared by the claim theorems.
-/

/-- A row found before an UPDATE is found afterwards, transformed by the SET
clause, provided the SET clause does not change the selection predicate. -/
theorem find_after_update (p : FoodDb.FoodRow → Bool) (f : FoodDb.FoodRow → FoodDb.FoodRow)
    (hp : ∀ x, p (f x) = p x) :
    ∀ (l : List FoodDb.FoodRow) (r : FoodDb.FoodRow),
      l.find? p = some r →
      (l.map (fun x => if p x then f x else x)).find? p = some (f r) := by
  intro l
  induction l with
  | nil => intro r h; simp at h
  | cons a l ih =>
      intro r h
      cases hb : p a with
      | true =>
          rw [List.find?_cons_of_pos _ hb] at h
          injection h with h2
          subst h2
          have hfa : p (f a) = true := by rw [hp a]; exact hb
          have hhead : (if p a = true then f a else a) = f a := by rw [hb]; simp
          rw [List.map_cons, hhead, List.find?_cons_of_pos _ hfa]
      | false =>
          rw [List.find?_cons_of_neg _ (by simp [hb])] at h
          have hhead : (if p a = true then f a else a) = a := by rw [hb]; simp
          rw [List.map_cons, hhead, List.find?_cons_of_neg _ (by simp [hb])]
          exact ih r h

/-- `get_recipe` on a store whose id lookup finds a row returns that row's
column dict with the `servings` alias appended. -/
theorem get_recipe_found (s : FoodDb.FoodStore) (rid : Nat) (r : FoodDb.FoodRow)
    (h : s.rows.find? (fun x => x.id == rid) = some r) :
    FoodDb.get_recipe s rid = some (FoodDb.recipeDict r) := by
  unfold FoodDb.get_recipe
  rw [h]
  rfl

/-- `get_recipe` on a store whose id lookup finds nothing returns `none`. -/
theorem get_recipe_not_found (s : FoodDb.FoodStore) (rid : Nat)
    (h : s.rows.find? (fun x => x.id == rid) = none) :
    FoodDb.get_recipe s rid = none := by
  unfold FoodDb.get_recipe
  rw [h]

/-- After a DELETE by id, an id lookup finds nothing. -/
theorem find_after_delete (l : List FoodDb.FoodRow) (rid : Nat) :
    (l.filter (fun r => !(r.id == rid))).find? (fun x => x.id == rid) = none := by
  rw [List.find?_eq_none]
  intro x hx
  have hmem := List.of_mem_filter hx
  simp only [Bool.not_eq_true'] at hmem
  simp [hmem]


/-!
Claim theorems.
-/

/-- Claim C1 counterexample: calling `add_recipe` with the whitespace-only
title "   " does not fail with a ValidationError — the function contains no
validation — and a recipe row is created: it returns the new id 1 and the
store then holds one row whose stored title is the empty string. -/
theorem c1_add_whitespace_title_creates_row :
    (FoodDb.add_recipe FoodDb.emptyStore { title := "   " } "2025-01-01 00:00:00").1 = 1 ∧
    (FoodDb.add_recipe FoodDb.emptyStore { title := "   " }
        "2025-01-01 00:00:00").2.rows.length = 1 ∧
    ((FoodDb.add_recipe FoodDb.emptyStore { title := "   " }
        "2025-01-01 00:00:00").2.rows.map (fun r => r.title)) = [""] :=
  ⟨rfl, rfl, by decide⟩

/-- Claim C1 (amended): `add_recipe` performs no title validation.  For every
store and arguments — whether the title is empty, whitespace-only, or
non-empty after trimming — the call succeeds, returns the newly assigned
integer id (the AUTOINCREMENT counter), and appends exactly one row whose
stored title is the stripped input title. -/
theorem c1_add_recipe_always_inserts (s : FoodDb.FoodStore) (a : FoodDb.AddArgs)
    (now : String) :
    (FoodDb.add_recipe s a now).1 = s.nextId ∧
    ∃ r : FoodDb.FoodRow,
      (FoodDb.add_recipe s a now).2.rows = s.rows ++ [r] ∧
      r.id = s.nextId ∧ r.title = pyStrip a.title :=
  ⟨rfl, _, rfl, rfl, rfl⟩

/-- Claim C2: image columns written by `update_recipe` follow the
`keep_existing_image` flag.  On the row the update targets: with the flag
false and no new image values the three image columns are cleared; with the
flag true (its default) and no new image values they are left unchanged; and
an explicitly supplied new image replaces the old one under either flag.  No
other column changes except `updated_at`. -/
theorem c2_update_recipe_image_flag (s : FoodDb.FoodStore) (rid : Nat)
    (r : FoodDb.FoodRow) (now : String)
    (h : s.rows.find? (fun x => x.id == rid) = some r)
    (b : List Nat) (m fn : String) :
    ((FoodDb.update_recipe s rid { keep_existing_image := false } now).rows.find?
        (fun x => x.id == rid)
      = some { r with image_bytes := none, image_mime := none, image_filename := none,
                      updated_at := now }) ∧
    ((FoodDb.update_recipe s rid {} now).rows.find? (fun x => x.id == rid)
      = some { r with updated_at := now }) ∧
    ((FoodDb.update_recipe s rid
        { image_bytes := some b, image_mime := some m, image_filename := some fn,
          keep_existing_image := false } now).rows.find? (fun x => x.id == rid)
      = some { r with image_bytes := some b, image_mime := some m,
                      image_filename := some fn, updated_at := now }) ∧
    ((FoodDb.update_recipe s rid
        { image_bytes := some b, image_mime := some m, image_filename := some fn } now).rows.find?
        (fun x => x.id == rid)
      = some { r with image_bytes := some b, image_mime := some m,
                      image_filename := some fn, updated_at := now }) := by
  refine ⟨?_, ?_, ?_, ?_⟩
  · exact find_after_update (fun x => x.id == rid)
      (FoodDb.applyUpdate { keep_existing_image := false } now) (fun x => rfl) s.rows r h
  · exact find_after_update (fun x => x.id == rid)
      (FoodDb.applyUpdate {} now) (fun x => rfl) s.rows r h
  · exact find_after_update (fun x => x.id == rid)
      (FoodDb.applyUpdate
        { image_bytes := some b, image_mime := some m, image_filename := some fn,
          keep_existing_image := false } now) (fun x => rfl) s.rows r h
  · exact find_after_update (fun x => x.id == rid)
      (FoodDb.applyUpdate
        { image_bytes := some b, image_mime := some m, image_filename := some fn } now)
      (fun x => rfl) s.rows r h

/-- Witness for claim C2: the image-flag contract evaluated on the concrete
one-row sample store. -/
theorem c2_update_recipe_image_flag_witness :
    (FoodDb.sampleStore.rows.find? (fun x => x.id == 1) = some FoodDb.sampleRow) ∧
    (((FoodDb.update_recipe FoodDb.sampleStore 1 { keep_existing_image := false } "t1").rows.find? (fun x => x.id == 1)
      = some { FoodDb.sampleRow with image_bytes := none, image_mime := none, image_filename := none, updated_at := "t1" }) ∧
    ((FoodDb.update_recipe FoodDb.sampleStore 1 {} "t1").rows.find? (fun x => x.id == 1)
      = some { FoodDb.sampleRow with updated_at := "t1" }) ∧
    ((FoodDb.update_recipe FoodDb.sampleStore 1 { image_bytes := some [1, 2, 3], image_mime := some "image/jpeg", image_filename := some "new.jpg", keep_existing_image := false } "t1").rows.find? (fun x => x.id == 1)
      = some { FoodDb.sampleRow with image_bytes := some [1, 2, 3], image_mime := some "image/jpeg", image_filename := some "new.jpg", updated_at := "t1" }) ∧
    ((FoodDb.update_recipe FoodDb.sampleStore 1 { image_bytes := some [1, 2, 3], image_mime := some "image/jpeg", image_filename := some "new.jpg" } "t1").rows.find? (fun x => x.id == 1)
      = some { FoodDb.sampleRow with image_bytes := some [1, 2, 3], image_mime := some "image/jpeg", image_filename := some "new.jpg", updated_at := "t1" })) :=
  ⟨rfl, c2_update_recipe_image_flag FoodDb.sampleStore 1 FoodDb.sampleRow "t1" rfl
    [1, 2, 3] "image/jpeg" "new.jpg"⟩

/-- Claim C4 counterexample: a recipe added with neither `serves` nor
`servings` supplied is stored with serves = 0: the default is 0 (not 1) and
the stored value violates serves ≥ 1. -/
theorem c4_serves_default_zero :
    (((FoodDb.add_recipe FoodDb.emptyStore { title := "Soup" }
        "2025-01-01 00:00:00").2.rows.map (fun r => r.serves)) = [0]) ∧
    ¬ ((0 : Int) ≥ 1) :=
  ⟨by decide, by decide⟩

/-- Claim C4 (amended): in src/food/db.py the default for serves is 0, not 1,
and no serves ≥ 1 invariant is enforced: a recipe added with neither `serves`
nor `servings` is stored with serves = 0, the stored value is exactly the
supplied integer otherwise, and `serves` wins over `servings` when both are
given. -/
theorem c4_add_recipe_serves_semantics (s : FoodDb.FoodStore) (t now : String)
    (a b : Int) :
    (∃ r : FoodDb.FoodRow,
        (FoodDb.add_recipe s { title := t } now).2.rows = s.rows ++ [r] ∧
        r.serves = 0) ∧
    (∃ r : FoodDb.FoodRow,
        (FoodDb.add_recipe s { title := t, serves := some a, servings := some b }
            now).2.rows = s.rows ++ [r] ∧ r.serves = a) ∧
    (∃ r : FoodDb.FoodRow,
        (FoodDb.add_recipe s { title := t, servings := some b } now).2.rows
          = s.rows ++ [r] ∧ r.serves = b) :=
  ⟨⟨_, rfl, rfl⟩, ⟨_, rfl, rfl⟩, ⟨_, rfl, rfl⟩⟩

/-- Claim C5: an `update_recipe` call in which every updatable field is
omitted (all values None, `keep_existing_image` at its default True) leaves
the record returned by `get_recipe` identical before and after, except for
the `updated_at` entry. -/
theorem c5_update_all_omitted_noop (s : FoodDb.FoodStore) (rid : Nat)
    (r : FoodDb.FoodRow) (now : String)
    (h : s.rows.find? (fun x => x.id == rid) = some r) :
    ∃ d d2, FoodDb.get_recipe s rid = some d ∧
      FoodDb.get_recipe (FoodDb.update_recipe s rid {} now) rid = some d2 ∧
      FoodDb.dropKey d2 "updated_at" = FoodDb.dropKey d "updated_at" :=
  ⟨FoodDb.recipeDict r, FoodDb.recipeDict (FoodDb.applyUpdate {} now r),
    get_recipe_found s rid r h,
    get_recipe_found _ rid _
      (find_after_update (fun x => x.id == rid) (FoodDb.applyUpdate {} now)
        (fun x => rfl) s.rows r h),
    rfl⟩

/-- Witness for claim C5: the omitted-fields update evaluated on the concrete
one-row sample store. -/
theorem c5_update_all_omitted_noop_witness :
    (FoodDb.sampleStore.rows.find? (fun x => x.id == 1) = some FoodDb.sampleRow) ∧
    (∃ d d2, FoodDb.get_recipe FoodDb.sampleStore 1 = some d ∧
      FoodDb.get_recipe (FoodDb.update_recipe FoodDb.sampleStore 1 {} "t1") 1 = some d2 ∧
      FoodDb.dropKey d2 "updated_at" = FoodDb.dropKey d "updated_at") :=
  ⟨rfl, c5_update_all_omitted_noop FoodDb.sampleStore 1 FoodDb.sampleRow "t1" rfl⟩

/-- Claim C3: operations on a nonexistent id.  `get_recipe` returns an
absent result (None) rather than throwing; the rowcount-returning
`update_recipe` variant reports zero rows affected; `delete_recipe` completes
as a no-op leaving the store unchanged; and for every store and id,
`get_recipe` after `delete_recipe` of that id returns an absent result. -/
theorem c3_missing_id_behaviour (s : FoodDb.FoodStore) (t : CookbookDb.CookTable)
    (rid : Nat)
    (hs : ∀ r ∈ s.rows, r.id ≠ rid) (ht : ∀ r ∈ t.rows, r.id ≠ rid)
    (title description ingredients steps tags : String) (p c sv : Int) :
    FoodDb.get_recipe s rid = none ∧
    (CookbookDb.update_recipe t rid title description ingredients steps tags p c sv).1 = 0 ∧
    FoodDb.delete_recipe s rid = s ∧
    (∀ (s2 : FoodDb.FoodStore) (j : Nat),
      FoodDb.get_recipe (FoodDb.delete_recipe s2 j) j = none) := by
  refine ⟨?_, ?_, ?_, ?_⟩
  · apply get_recipe_not_found
    rw [List.find?_eq_none]
    intro x hx
    simpa using hs x hx
  · show (t.rows.filter (fun r => r.id == rid)).length = 0
    rw [List.length_eq_zero, List.filter_eq_nil_iff]
    intro a ha
    simpa using ht a ha
  · show { s with rows := s.rows.filter (fun r => !(r.id == rid)) } = s
    have hself : s.rows.filter (fun r => !(r.id == rid)) = s.rows := by
      apply List.filter_eq_self.mpr
      intro a ha
      simpa using hs a ha
    rw [hself]
  · intro s2 j
    apply get_recipe_not_found
    exact find_after_delete s2.rows j

/-- Witness for claim C3: the nonexistent id 99 against the concrete sample
store and sample legacy table. -/
theorem c3_missing_id_behaviour_witness :
    ((∀ r ∈ FoodDb.sampleStore.rows, r.id ≠ 99) ∧
      (∀ r ∈ CookbookDb.sampleLegacy.rows, r.id ≠ 99)) ∧
    (FoodDb.get_recipe FoodDb.sampleStore 99 = none ∧
    (CookbookDb.update_recipe CookbookDb.sampleLegacy 99 "T" "D" "I" "S" "G" 1 2 3).1 = 0 ∧
    FoodDb.delete_recipe FoodDb.sampleStore 99 = FoodDb.sampleStore ∧
    (∀ (s2 : FoodDb.FoodStore) (j : Nat),
      FoodDb.get_recipe (FoodDb.delete_recipe s2 j) j = none)) :=
  ⟨⟨by decide, by decide⟩,
    c3_missing_id_behaviour FoodDb.sampleStore CookbookDb.sampleLegacy 99
      (by decide) (by decide) "T" "D" "I" "S" "G" 1 2 3⟩

/-- Claim C6 counterexample: `list_recipes` of src/services/db.py returns
recipes in recency order, not sorted alphabetically by title — on a store
holding "Apple" (created first) and "Beef" (created second) it lists "Beef"
before "Apple", although "Beef" does not precede "Apple" alphabetically. -/
theorem c6_services_list_not_alphabetical :
    ((ServicesDb.list_recipes ServicesDb.servicesSample 100 none).map
        (fun x => x.2.1)) = ["Beef", "Apple"] ∧
    ¬ (("Beef" : String) ≤ "Apple") :=
  ⟨rfl, by rw [String.le_iff_toList_le]; decide⟩

/-- Claim C6 (amended): `list_recipes` of src/food/db.py (`ORDER BY title
ASC`) returns its rows in nondecreasing title order for every store; the SQL
names no id tie-break, so the order of equal titles is not a contract, and
the src/services/db.py variant orders by `created_at DESC` (recency), not
alphabetically. -/
theorem c6_food_list_sorted_by_title (s : FoodDb.FoodStore) :
    List.Pairwise (fun x y : Nat × String => x.2 ≤ y.2) (FoodDb.list_recipes s) := by
  have hs := List.sorted_insertionSort FoodDb.titleLe s.rows
  exact List.Pairwise.map _ (fun a b hab => hab) hs

/-- Claim C7: when schema initialization sees a legacy table in which the
ingredients or steps column is declared NOT NULL, it rebuilds the table with
both columns nullable, preserving every row (all values and ids); the
rebuild is a single BEGIN/commit transaction, modelled as one state
transition — the state is either the input table or the fully migrated one. -/
theorem c7_init_db_migrates (t : CookbookDb.CookTable)
    (h : t.ingredients_notnull = true ∨ t.steps_notnull = true) :
    (CookbookDb.init_db (some t)).ingredients_notnull = false ∧
    (CookbookDb.init_db (some t)).steps_notnull = false ∧
    (CookbookDb.init_db (some t)).rows = t.rows := by
  unfold CookbookDb.init_db
  rcases h with h | h <;> simp [h]

/-- Witness for claim C7: the migration evaluated on the concrete legacy
table whose two columns are NOT NULL. -/
theorem c7_init_db_migrates_witness :
    (CookbookDb.sampleLegacy.ingredients_notnull = true ∨
      CookbookDb.sampleLegacy.steps_notnull = true) ∧
    ((CookbookDb.init_db (some CookbookDb.sampleLegacy)).ingredients_notnull = false ∧
    (CookbookDb.init_db (some CookbookDb.sampleLegacy)).steps_notnull = false ∧
    (CookbookDb.init_db (some CookbookDb.sampleLegacy)).rows = CookbookDb.sampleLegacy.rows) :=
  ⟨Or.inl rfl, c7_init_db_migrates CookbookDb.sampleLegacy (Or.inl rfl)⟩

/-- Claim C8: `ping` attempts a trivial round-trip query and, for every
backend failure, returns false instead of propagating the exception; it
returns true when the backend answers.  The function is modelled from the
spec because no definition of it exists under src/. -/
theorem c8_ping_never_propagates :
    (∀ e : String, Diagnostics.ping (Except.error e) = false) ∧
    (∀ u : Unit, Diagnostics.ping (Except.ok u) = true) :=
  ⟨fun _ => rfl, fun _ => rfl⟩

/-- Claim C9: every dict returned by `get_recipe` contains both a serves key
and a servings key holding the same value — the servings alias is appended
whenever absent, and it is always absent from the freshly built column dict. -/
theorem c9_get_recipe_servings_alias (s : FoodDb.FoodStore) (rid : Nat)
    (d : List (String × FoodDb.Value))
    (h : FoodDb.get_recipe s rid = some d) :
    ∃ v, d.lookup "serves" = some v ∧ d.lookup "servings" = some v := by
  cases hf : s.rows.find? (fun x => x.id == rid) with
  | none =>
      rw [get_recipe_not_found s rid hf] at h
      cases h
  | some r =>
      rw [get_recipe_found s rid r hf] at h
      injection h with h2
      subst h2
      exact ⟨FoodDb.Value.int r.serves, rfl, rfl⟩

/-- Witness for claim C9: the serves/servings alias evaluated on the dict
returned for the concrete sample row. -/
theorem c9_get_recipe_servings_alias_witness :
    (FoodDb.get_recipe FoodDb.sampleStore 1 = some (FoodDb.recipeDict FoodDb.sampleRow)) ∧
    (∃ v, (FoodDb.recipeDict FoodDb.sampleRow).lookup "serves" = some v ∧
      (FoodDb.recipeDict FoodDb.sampleRow).lookup "servings" = some v) :=
  ⟨rfl, c9_get_recipe_servings_alias FoodDb.sampleStore 1
    (FoodDb.recipeDict FoodDb.sampleRow) rfl⟩

/-- Claim C10: every public CRUD operation invoked on a state in which
`init_db` was never called (no connection held) does not fail for lack of
initialization: the connection helper opens the SQLite store at the default
path "food.sqlite3" and ensures the schema first, and the operation then
acts on the underlying store exactly as its core statement does. -/
theorem c10_ops_before_init (st : FoodDb.DBState) (h : st.connected = false)
    (a : FoodDb.AddArgs) (u : FoodDb.UpdateArgs) (rid : Nat) (now : String) :
    FoodDb.conn st
      = { st with connected := true, engine := some "sqlite",
                  path := some "food.sqlite3", schemaReady := true } ∧
    (FoodDb.add_recipe_op st a now).1 = (FoodDb.add_recipe st.store a now).1 ∧
    (FoodDb.add_recipe_op st a now).2.store = (FoodDb.add_recipe st.store a now).2 ∧
    (FoodDb.add_recipe_op st a now).2.connected = true ∧
    (FoodDb.add_recipe_op st a now).2.path = some "food.sqlite3" ∧
    (FoodDb.add_recipe_op st a now).2.schemaReady = true ∧
    (FoodDb.get_recipe_op st rid).1 = FoodDb.get_recipe st.store rid ∧
    (FoodDb.list_recipes_op st).1 = FoodDb.list_recipes st.store ∧
    (FoodDb.update_recipe_op st rid u now).store = FoodDb.update_recipe st.store rid u now ∧
    (FoodDb.delete_recipe_op st rid).store = FoodDb.delete_recipe st.store rid ∧
    (FoodDb.count_recipes_op st).1 = FoodDb.count_recipes st.store := by
  have hc : FoodDb.conn st
      = { st with connected := true, engine := some "sqlite",
                  path := some "food.sqlite3", schemaReady := true } := by
    unfold FoodDb.conn
    rw [h]
    simp
  refine ⟨hc, ?_, ?_, ?_, ?_, ?_, ?_, ?_, ?_, ?_, ?_⟩ <;>
    simp [FoodDb.add_recipe_op, FoodDb.get_recipe_op, FoodDb.list_recipes_op,
      FoodDb.update_recipe_op, FoodDb.delete_recipe_op, FoodDb.count_recipes_op, hc]

/-- Witness for claim C10: the before-initialization contract evaluated on
the concrete unconnected state. -/
theorem c10_ops_before_init_witness :
    (FoodDb.sampleUninit.connected = false) ∧
    (FoodDb.conn FoodDb.sampleUninit
      = { FoodDb.sampleUninit with connected := true, engine := some "sqlite",
                                   path := some "food.sqlite3", schemaReady := true } ∧
    (FoodDb.add_recipe_op FoodDb.sampleUninit { title := "X" } "t2").1
      = (FoodDb.add_recipe FoodDb.sampleUninit.store { title := "X" } "t2").1 ∧
    (FoodDb.add_recipe_op FoodDb.sampleUninit { title := "X" } "t2").2.store
      = (FoodDb.add_recipe FoodDb.sampleUninit.store { title := "X" } "t2").2 ∧
    (FoodDb.add_recipe_op FoodDb.sampleUninit { title := "X" } "t2").2.connected = true ∧
    (FoodDb.add_recipe_op FoodDb.sampleUninit { title := "X" } "t2").2.path
      = some "food.sqlite3" ∧
    (FoodDb.add_recipe_op FoodDb.sampleUninit { title := "X" } "t2").2.schemaReady = true ∧
    (FoodDb.get_recipe_op FoodDb.sampleUninit 1).1
      = FoodDb.get_recipe FoodDb.sampleUninit.store 1 ∧
    (FoodDb.list_recipes_op FoodDb.sampleUninit).1
      = FoodDb.list_recipes FoodDb.sampleUninit.store ∧
    (FoodDb.update_recipe_op FoodDb.sampleUninit 1 {} "t2").store
      = FoodDb.update_recipe FoodDb.sampleUninit.store 1 {} "t2" ∧
    (FoodDb.delete_recipe_op FoodDb.sampleUninit 1).store
      = FoodDb.delete_recipe FoodDb.sampleUninit.store 1 ∧
    (FoodDb.count_recipes_op FoodDb.sampleUninit).1
      = FoodDb.count_recipes FoodDb.sampleUninit.store) :=
  ⟨rfl, c10_ops_before_init FoodDb.sampleUninit rfl { title := "X" } {} 1 "t2"⟩
